import Mathlib

set_option maxRecDepth 100000

/-!
# Verification of the page composition & validation pipeline

Shallow embedding of the schema-driven page composition engine:
- a JSON-like value model (`JsValue`) for raw content documents and props,
- an embedding of the Zod validator combinators actually used by the
  section/shell/page schemas (`Zod`, `parseZ`),
- the section and shell registries with their registered schemas,
- the override resolver, shell-slot validator, page loader and the SEO
  helpers (`forceNoindex`, `getRuntimeI18n`).

Definitions mirror the TypeScript source (`SectionRegistry.ts`,
`ShellRegistry.ts`, `page.schema.ts`, `page-loader.ts`, `runtimeError.ts`,
`SectionRenderer.vue`, `ThemeScope.vue`, `pagePolicy.ts` and the per-section
`schema.ts` files).  Vue components and fixtures are opaque to every claim
proved here, so registry entries carry only the data the claims mention
(id, slot, schema).
-/

/-- A JavaScript runtime value as it appears in parsed YAML/JSON content
documents and props payloads.  `undefined` models JS `undefined` (an absent
field), `jnull` models JS `null`.  Numbers are modelled as integers: every
numeric check in the embedded schemas (`.int()`, `.min()`, `.max()`) is
integral. -/
inductive JsValue where
  | undefined
  | jnull
  | jbool (b : Bool)
  | jnum (n : Int)
  | jstr (s : String)
  | jarr (elems : List JsValue)
  | jobj (fields : List (String × JsValue))
deriving Repr

mutual
/-- Boolean structural equality on `JsValue` (deep equality). -/
def jsBeq : JsValue → JsValue → Bool
  | .undefined, .undefined => true
  | .jnull, .jnull => true
  | .jbool a, .jbool b => a == b
  | .jnum a, .jnum b => a == b
  | .jstr a, .jstr b => a == b
  | .jarr xs, .jarr ys => jsBeqList xs ys
  | .jobj xs, .jobj ys => jsBeqFields xs ys
  | _, _ => false
/-- `jsBeq` on element lists. -/
def jsBeqList : List JsValue → List JsValue → Bool
  | [], [] => true
  | x :: xs, y :: ys => jsBeq x y && jsBeqList xs ys
  | _, _ => false
/-- `jsBeq` on field lists. -/
def jsBeqFields : List (String × JsValue) → List (String × JsValue) → Bool
  | [], [] => true
  | (k, v) :: xs, (k', v') :: ys => k == k' && jsBeq v v' && jsBeqFields xs ys
  | _, _ => false
end

mutual
theorem jsBeq_eq : ∀ {a b : JsValue}, jsBeq a b = true → a = b
  | .undefined, .undefined, _ => rfl
  | .jnull, .jnull, _ => rfl
  | .jbool a, .jbool b, h => by
    simp only [jsBeq, beq_iff_eq] at h; rw [h]
  | .jnum a, .jnum b, h => by
    simp only [jsBeq, beq_iff_eq] at h; rw [h]
  | .jstr a, .jstr b, h => by
    simp only [jsBeq, beq_iff_eq] at h; rw [h]
  | .jarr xs, .jarr ys, h => by
    have h' : xs = ys := @jsBeqList_eq xs ys (by simpa [jsBeq] using h)
    rw [h']
  | .jobj xs, .jobj ys, h => by
    have h' : xs = ys := @jsBeqFields_eq xs ys (by simpa [jsBeq] using h)
    rw [h']

theorem jsBeqList_eq : ∀ {xs ys : List JsValue}, jsBeqList xs ys = true → xs = ys
  | [], [], _ => rfl
  | x :: xs, y :: ys, h => by
    simp only [jsBeqList, Bool.and_eq_true] at h
    rw [jsBeq_eq h.1, jsBeqList_eq h.2]

theorem jsBeqFields_eq :
    ∀ {xs ys : List (String × JsValue)}, jsBeqFields xs ys = true → xs = ys
  | [], [], _ => rfl
  | (k, v) :: xs, (k', v') :: ys, h => by
    simp only [jsBeqFields, Bool.and_eq_true, beq_iff_eq] at h
    rw [h.1.1, jsBeq_eq h.1.2, jsBeqFields_eq h.2]
end

mutual
theorem jsBeq_refl : ∀ (a : JsValue), jsBeq a a = true
  | .undefined => rfl
  | .jnull => rfl
  | .jbool a => by simp [jsBeq]
  | .jnum a => by simp [jsBeq]
  | .jstr a => by simp [jsBeq]
  | .jarr xs => by simpa [jsBeq] using jsBeqList_refl xs
  | .jobj xs => by simpa [jsBeq] using jsBeqFields_refl xs

theorem jsBeqList_refl : ∀ (xs : List JsValue), jsBeqList xs xs = true
  | [] => rfl
  | x :: xs => by simp [jsBeqList, jsBeq_refl x, jsBeqList_refl xs]

theorem jsBeqFields_refl : ∀ (xs : List (String × JsValue)), jsBeqFields xs xs = true
  | [] => rfl
  | (k, v) :: xs => by simp [jsBeqFields, jsBeq_refl v, jsBeqFields_refl xs]
end

instance : DecidableEq JsValue := fun a b =>
  decidable_of_iff (jsBeq a b = true) ⟨jsBeq_eq, fun h => h ▸ jsBeq_refl a⟩

/-- JS truthiness (`Boolean(v)`): `undefined`, `null`, `false`, `0` and the
empty string are falsy; objects and arrays are always truthy. -/
def jsTruthy : JsValue → Bool
  | .undefined => false
  | .jnull => false
  | .jbool b => b
  | .jnum n => n != 0
  | .jstr s => s != ""
  | .jarr _ => true
  | .jobj _ => true

/-- Property read `o[k]` on an object's field list: the first binding wins,
a missing key reads as `undefined`. -/
def jsGet (fields : List (String × JsValue)) (k : String) : JsValue :=
  match fields.find? (fun kv => kv.fst == k) with
  | some kv => kv.snd
  | none => .undefined

/-- The JS `k in o` check on an object's field list. -/
def jsHasKey (fields : List (String × JsValue)) (k : String) : Bool :=
  fields.any (fun kv => kv.fst == k)

/-- `String.prototype.startsWith`: the first argument is the candidate
prefix of the second.  Modelled on the underlying character lists so that
prefix facts can be reasoned about directly. -/
def jsStartsWith (p s : String) : Bool :=
  p.data.isPrefixOf s.data

mutual
/-- The Zod validator combinators used by the page/section/shell schemas.
String and number checks (`.min`, `.max`, `.url`, `.int`) are carried as
predicates on the parsed primitive; their exact grammar never matters to a
claim, only that they are pure checks of the value itself.

`shellCompS` is `ShellComponentSchema` from `page.schema.ts` /
`page-loader.ts`: `z.union([z.null(), z.object({id: z.string().min(1),
props: z.record(z.string(), z.unknown()).optional().default({})})])
.optional()`. -/
inductive Zod where
  | strS (checks : List (String → Bool))
  | numS (checks : List (Int → Bool))
  | boolS
  | enumS (options : List String)
  | arrayS (item : Zod) (lenChecks : List (Nat → Bool))
  | objectS (fields : ZFields)
  | optionalS (inner : Zod)
  | defaultS (inner : Zod) (d : JsValue)
  | recordStrS
  | recordUnknownS
  | refineS (inner : Zod) (check : JsValue → Bool) (msg : String)
  | shellCompS
/-- The field list of a `z.object(...)` shape, in declaration order. -/
inductive ZFields where
  | nil
  | cons (name : String) (s : Zod) (rest : ZFields)
end

/-- Build a `ZFields` from a list literal. -/
def ZFields.ofList : List (String × Zod) → ZFields
  | [] => .nil
  | (k, s) :: rest => .cons k s (ZFields.ofList rest)

/-- Names of an object shape's declared fields, in order. -/
def ZFields.names : ZFields → List String
  | .nil => []
  | .cons k _ rest => k :: rest.names

/-- Are all values of an object string values?  (`z.record(z.string(),
z.string())` accepts exactly these objects.) -/
def allStrVals (fields : List (String × JsValue)) : Bool :=
  fields.all (fun kv => match kv.snd with | .jstr _ => true | _ => false)

/-- Parse every element of an array with the item schema's parse
function. -/
def parseArrWith (f : JsValue → Except (List String) JsValue) :
    List JsValue → Except (List String) (List JsValue)
  | [] => .ok []
  | v :: vs =>
    match f v, parseArrWith f vs with
    | .ok out, .ok outs => .ok (out :: outs)
    | .error es, .ok _ => .error es
    | .ok _, .error es => .error es
    | .error es, .error es' => .error (es ++ es')

mutual
/-- `schema.safeParse(v)` for the embedded combinators: `.ok` carries the
coerced/defaulted output value, `.error` carries the list of issue
messages.  Zod v4 semantics throughout: objects strip unknown keys, an
optional field whose parse yields `undefined` is omitted from the output,
`.default(d)` short-circuits and returns `d` as-is on `undefined` input. -/
def parseZ : Zod → JsValue → Except (List String) JsValue
  | .strS checks, .jstr s =>
    if checks.all (fun c => c s) then .ok (.jstr s) else .error ["Invalid string"]
  | .strS _, _ => .error ["Invalid input: expected string"]
  | .numS checks, .jnum n =>
    if checks.all (fun c => c n) then .ok (.jnum n) else .error ["Invalid number"]
  | .numS _, _ => .error ["Invalid input: expected number"]
  | .boolS, .jbool b => .ok (.jbool b)
  | .boolS, _ => .error ["Invalid input: expected boolean"]
  | .enumS options, .jstr s =>
    if options.contains s then .ok (.jstr s) else .error ["Invalid enum value"]
  | .enumS _, _ => .error ["Invalid enum value"]
  | .arrayS item lenChecks, .jarr elems =>
    match parseArrWith (parseZ item) elems with
    | .ok out =>
      if lenChecks.all (fun c => c elems.length) then .ok (.jarr out)
      else .error ["Invalid array length"]
    | .error es => .error es
  | .arrayS _ _, _ => .error ["Invalid input: expected array"]
  | .objectS flds, .jobj src =>
    match parseFields flds src with
    | .ok out => .ok (.jobj out)
    | .error es => .error es
  | .objectS _, _ => .error ["Invalid input: expected object"]
  | .optionalS inner, v =>
    if v = .undefined then .ok .undefined else parseZ inner v
  | .defaultS inner d, v =>
    if v = .undefined then .ok d else parseZ inner v
  | .recordStrS, .jobj fields =>
    if allStrVals fields then .ok (.jobj fields)
    else .error ["Invalid input: expected string record value"]
  | .recordStrS, _ => .error ["Invalid input: expected record"]
  | .recordUnknownS, .jobj fields => .ok (.jobj fields)
  | .recordUnknownS, _ => .error ["Invalid input: expected record"]
  | .refineS inner check msg, v =>
    match parseZ inner v with
    | .ok out => if check out then .ok out else .error [msg]
    | .error es => .error es
  | .shellCompS, .undefined => .ok .undefined
  | .shellCompS, .jnull => .ok .jnull
  | .shellCompS, .jobj src =>
    match jsGet src "id", jsGet src "props" with
    | .jstr s, .undefined =>
      if 1 ≤ s.length then .ok (.jobj [("id", .jstr s), ("props", .jobj [])])
      else .error ["id: Shell id is required"]
    | .jstr s, .jobj props =>
      if 1 ≤ s.length then .ok (.jobj [("id", .jstr s), ("props", .jobj props)])
      else .error ["id: Shell id is required"]
    | .jstr _, _ => .error ["props: Invalid input: expected record"]
    | _, _ => .error ["id: Invalid input: expected string"]
  | .shellCompS, _ => .error ["Invalid shell component"]

/-- Parse each declared field of an object shape against the source
object's bindings; unknown source keys are stripped, fields whose parse
output is `undefined` are omitted. -/
def parseFields : ZFields → List (String × JsValue) → Except (List String) (List (String × JsValue))
  | .nil, _ => .ok []
  | .cons k s rest, src =>
    match parseZ s (jsGet src k), parseFields rest src with
    | .ok v, .ok out => .ok (if v = .undefined then out else (k, v) :: out)
    | .error es, .ok _ => .error (es.map (fun e => k ++ ": " ++ e))
    | .ok _, .error es => .error es
    | .error es, .error es' => .error (es.map (fun e => k ++ ": " ++ e) ++ es')
end

mutual
/-- Structural well-formedness of a schema term as it occurs in the source:
object field names are distinct (JS object literals cannot repeat a key)
and every `.default(d)` value is a fixed point of its inner schema
(re-parsing the default reproduces it).  All registered schemas satisfy
this; it is exactly what re-validation idempotence needs. -/
def wfZ : Zod → Bool
  | .strS _ => true
  | .numS _ => true
  | .boolS => true
  | .enumS _ => true
  | .arrayS item _ => wfZ item
  | .objectS flds => decide flds.names.Nodup && wfFields flds
  | .optionalS inner => wfZ inner
  | .defaultS inner d =>
    wfZ inner &&
      (d == .undefined ||
        (match parseZ inner d with | .ok out => out == d | .error _ => false))
  | .recordStrS => true
  | .recordUnknownS => true
  | .refineS inner _ _ => wfZ inner
  | .shellCompS => true

/-- `wfZ` over an object shape's fields. -/
def wfFields : ZFields → Bool
  | .nil => true
  | .cons _ s rest => wfZ s && wfFields rest
end

-- =============================================================================
-- Parse metatheory: auxiliary lemmas
-- =============================================================================

theorem jsGet_cons (k' k : String) (v : JsValue) (l : List (String × JsValue)) :
    jsGet ((k', v) :: l) k = if k' = k then v else jsGet l k := by
  by_cases h : k' = k <;> simp [jsGet, List.find?_cons, h]

/-- Only an absent (`undefined`) input can parse to an `undefined` output:
every combinator otherwise produces a string/number/boolean/array/object. -/
theorem parseZ_ok_undefined (s : Zod) (v : JsValue) (h : parseZ s v = .ok .undefined) :
    v = .undefined := by
  cases s with
  | strS checks =>
    cases v <;> simp only [parseZ] at h <;> (repeat' split at h) <;> simp_all
  | numS checks =>
    cases v <;> simp only [parseZ] at h <;> (repeat' split at h) <;> simp_all
  | boolS =>
    cases v <;> simp only [parseZ] at h <;> simp_all
  | enumS options =>
    cases v <;> simp only [parseZ] at h <;> (repeat' split at h) <;> simp_all
  | arrayS item lenChecks =>
    cases v <;> simp only [parseZ] at h <;> (repeat' split at h) <;> simp_all
  | objectS flds =>
    cases v <;> simp only [parseZ] at h <;> (repeat' split at h) <;> simp_all
  | optionalS inner =>
    by_cases hv : v = .undefined
    · exact hv
    · simp only [parseZ, hv, if_false] at h
      exact parseZ_ok_undefined inner v h
  | defaultS inner d =>
    by_cases hv : v = .undefined
    · exact hv
    · simp only [parseZ, hv, if_false] at h
      exact parseZ_ok_undefined inner v h
  | recordStrS =>
    cases v <;> simp only [parseZ] at h <;> (repeat' split at h) <;> simp_all
  | recordUnknownS =>
    cases v <;> simp only [parseZ] at h <;> simp_all
  | refineS inner check msg =>
    simp only [parseZ] at h
    split at h
    · rename_i out hout
      split at h
      · cases h; exact parseZ_ok_undefined inner v hout
      · cases h
    · cases h
  | shellCompS =>
    cases v <;> simp only [parseZ] at h <;> (repeat' split at h) <;> simp_all

/-- Parsing an array never changes its length. -/
theorem parseArrWith_length (f : JsValue → Except (List String) JsValue)
    (vs out : List JsValue)
    (h : parseArrWith f vs = .ok out) : out.length = vs.length := by
  induction vs generalizing out with
  | nil => simp only [parseArrWith] at h; cases h; rfl
  | cons v vs' ih =>
    simp only [parseArrWith] at h
    split at h
    · rename_i o os ho hos
      cases h
      simp [ih os hos]
    · cases h
    · cases h
    · cases h

/-- Every key of an object-parse output is a declared field name. -/
theorem parseFields_keys (flds : ZFields) (src out : List (String × JsValue))
    (h : parseFields flds src = .ok out) : ∀ kv ∈ out, kv.fst ∈ flds.names := by
  cases flds with
  | nil => simp only [parseFields] at h; cases h; intro kv hkv; cases hkv
  | cons k s rest =>
    simp only [parseFields] at h
    split at h
    · rename_i v0 out' hv0 hout'
      cases h
      intro kv hkv
      by_cases hv : v0 = .undefined
      · simp only [hv, if_true] at hkv
        exact List.mem_cons_of_mem _ (parseFields_keys rest src out' hout' kv hkv)
      · simp only [hv, if_false, List.mem_cons] at hkv
        rcases hkv with h1 | h2
        · simp [h1, ZFields.names]
        · exact List.mem_cons_of_mem _ (parseFields_keys rest src out' hout' kv h2)
    · cases h
    · cases h
    · cases h

theorem jsGet_eq_undefined_of_not_mem (l : List (String × JsValue)) (k : String)
    (h : ∀ kv ∈ l, kv.fst ≠ k) : jsGet l k = .undefined := by
  induction l with
  | nil => rfl
  | cons kv rest ih =>
    rw [show kv = (kv.fst, kv.snd) from rfl, jsGet_cons]
    rw [if_neg (h kv (List.mem_cons_self kv rest))]
    exact ih (fun kv' h' => h kv' (List.mem_cons_of_mem kv h'))

/-- A binding whose key is not a declared field name is invisible to an
object parse (unknown keys are stripped, never inspected). -/
theorem parseFields_skip (flds : ZFields) (k : String) (hk : k ∉ flds.names)
    (v : JsValue) (l : List (String × JsValue)) :
    parseFields flds ((k, v) :: l) = parseFields flds l := by
  cases flds with
  | nil => simp only [parseFields]
  | cons k' s rest =>
    simp only [ZFields.names, List.mem_cons] at hk
    push_neg at hk
    have hne : k ≠ k' := hk.1
    have ih' := parseFields_skip rest k hk.2 v l
    simp only [parseFields, jsGet_cons, if_neg hne, ih']

mutual
/-- Re-parsing a parse output reproduces it, for any well-formed schema:
Zod validation is idempotent on its own coerced output. -/
theorem parseZ_idem (s : Zod) (v out : JsValue) (hw : wfZ s = true)
    (h : parseZ s v = .ok out) : parseZ s out = .ok out := by
  cases s with
  | strS checks =>
    have hv : out = v := by
      cases v <;> simp only [parseZ] at h <;> (repeat' split at h) <;> simp_all
    subst hv
    exact h
  | numS checks =>
    have hv : out = v := by
      cases v <;> simp only [parseZ] at h <;> (repeat' split at h) <;> simp_all
    subst hv
    exact h
  | boolS =>
    have hv : out = v := by
      cases v <;> simp only [parseZ] at h <;> simp_all
    subst hv
    exact h
  | enumS options =>
    have hv : out = v := by
      cases v <;> simp only [parseZ] at h <;> (repeat' split at h) <;> simp_all
    subst hv
    exact h
  | recordStrS =>
    have hv : out = v := by
      cases v <;> simp only [parseZ] at h <;> (repeat' split at h) <;> simp_all
    subst hv
    exact h
  | recordUnknownS =>
    have hv : out = v := by
      cases v <;> simp only [parseZ] at h <;> simp_all
    subst hv
    exact h
  | arrayS item lenChecks =>
    cases v
    case jarr elems =>
      simp only [parseZ] at h
      split at h
      · rename_i es0 hA
        split at h
        · rename_i hc
          cases h
          have hlen : es0.length = elems.length :=
            parseArrWith_length (parseZ item) elems es0 hA
          have hidem : parseArrWith (parseZ item) es0 = .ok es0 :=
            parseArr_idem item elems es0 (by simpa [wfZ] using hw) hA
          simp only [parseZ, hidem, hlen, hc, if_true]
        · cases h
      · cases h
    all_goals (simp only [parseZ] at h; exact Except.noConfusion h)
  | objectS flds =>
    cases v
    case jobj src =>
      simp only [parseZ] at h
      split at h
      · rename_i outF hF
        cases h
        have hnd : flds.names.Nodup := by
          simp only [wfZ, Bool.and_eq_true, decide_eq_true_eq] at hw
          exact hw.1
        have hwF : wfFields flds = true := by
          simp only [wfZ, Bool.and_eq_true] at hw
          exact hw.2
        have hidem := parseFields_idem flds src outF hnd hwF hF
        simp only [parseZ, hidem]
      · cases h
    all_goals (simp only [parseZ] at h; exact Except.noConfusion h)
  | optionalS inner =>
    by_cases hv : v = .undefined
    · subst hv
      simp only [parseZ, if_pos rfl] at h
      cases h
      simp [parseZ]
    · simp only [parseZ, if_neg hv] at h
      by_cases ho : out = .undefined
      · subst ho
        simp [parseZ]
      · have hre := parseZ_idem inner v out (by simpa [wfZ] using hw) h
        simp only [parseZ, if_neg ho, hre]
  | defaultS inner d =>
    have hwi : wfZ inner = true := by
      simp only [wfZ, Bool.and_eq_true] at hw
      exact hw.1
    have hdfix : d = .undefined ∨ parseZ inner d = .ok d := by
      simp only [wfZ, Bool.and_eq_true, Bool.or_eq_true, beq_iff_eq] at hw
      rcases hw.2 with h1 | h2
      · exact Or.inl h1
      · right
        revert h2
        cases hpd : parseZ inner d with
        | ok o =>
          intro h2
          simp only [beq_iff_eq] at h2
          rw [h2]
        | error es => intro h2; simp at h2
    by_cases hv : v = .undefined
    · subst hv
      simp only [parseZ, if_pos rfl] at h
      cases h
      by_cases hd : out = .undefined
      · subst hd
        simp [parseZ]
      · rcases hdfix with h1 | h2
        · exact absurd h1 hd
        · simp only [parseZ, if_neg hd, h2]
    · simp only [parseZ, if_neg hv] at h
      by_cases ho : out = .undefined
      · subst ho
        exact absurd (parseZ_ok_undefined inner v h) hv
      · have hre := parseZ_idem inner v out hwi h
        simp only [parseZ, if_neg ho, hre]
  | refineS inner check msg =>
    simp only [parseZ] at h
    split at h
    · rename_i o ho
      split at h
      · rename_i hc
        cases h
        have hre := parseZ_idem inner v out (by simpa [wfZ] using hw) ho
        simp [parseZ, hre, hc]
      · cases h
    · cases h
  | shellCompS =>
    cases v
    case undefined =>
      simp only [parseZ] at h
      cases h
      simp [parseZ]
    case jnull =>
      simp only [parseZ] at h
      cases h
      simp [parseZ]
    case jobj src =>
      simp only [parseZ] at h
      split at h
      · rename_i s0 hid hprops
        split at h
        · rename_i hlen
          cases h
          simp [parseZ, jsGet, hlen]
        · cases h
      · rename_i s0 props hid hprops
        split at h
        · rename_i hlen
          cases h
          simp [parseZ, jsGet, hlen]
        · cases h
      · cases h
      · cases h
    all_goals (simp only [parseZ] at h; exact Except.noConfusion h)

termination_by (sizeOf s, 0)

/-- `parseZ_idem` over the declared fields of an object shape. -/
theorem parseFields_idem (flds : ZFields) (src out : List (String × JsValue))
    (hnd : flds.names.Nodup) (hw : wfFields flds = true)
    (h : parseFields flds src = .ok out) : parseFields flds out = .ok out := by
  cases flds with
  | nil =>
    simp only [parseFields] at h
    cases h
    simp [parseFields]
  | cons k s rest =>
    have hnd' : k ∉ rest.names ∧ rest.names.Nodup := by
      simpa [ZFields.names, List.nodup_cons] using hnd
    have hw' : wfZ s = true ∧ wfFields rest = true := by
      simpa [wfFields, Bool.and_eq_true] using hw
    simp only [parseFields] at h
    split at h
    · rename_i v0 out' hv0 hout'
      have hih : parseFields rest out' = .ok out' :=
        parseFields_idem rest src out' hnd'.2 hw'.2 hout'
      by_cases hv : v0 = .undefined
      · subst hv
        have hout : out = out' := by simpa using h.symm
        subst hout
        have hget : jsGet out k = .undefined := by
          apply jsGet_eq_undefined_of_not_mem
          intro kv hkv hkvk
          exact hnd'.1 (hkvk ▸ parseFields_keys rest src out hout' kv hkv)
        have hsrc : jsGet src k = .undefined := parseZ_ok_undefined s (jsGet src k) hv0
        rw [hsrc] at hv0
        simp [parseFields, hget, hv0, hih]
      · have hout : out = (k, v0) :: out' := by
          rw [if_neg hv] at h
          simpa using h.symm
        subst hout
        have hre : parseZ s v0 = .ok v0 := parseZ_idem s (jsGet src k) v0 hw'.1 hv0
        have hskip : parseFields rest ((k, v0) :: out') = parseFields rest out' :=
          parseFields_skip rest k hnd'.1 v0 out'
        simp [parseFields, jsGet_cons, hre, hskip, hih, hv]
    · cases h
    · cases h
    · cases h

termination_by (sizeOf flds, 0)

/-- `parseZ_idem` over the elements of an array. -/
theorem parseArr_idem (item : Zod) (vs out : List JsValue) (hw : wfZ item = true)
    (h : parseArrWith (parseZ item) vs = .ok out) :
    parseArrWith (parseZ item) out = .ok out := by
  cases vs with
  | nil =>
    simp only [parseArrWith] at h
    cases h
    simp [parseArrWith]
  | cons v vs' =>
    simp only [parseArrWith] at h
    split at h
    · rename_i o os ho hos
      cases h
      have h1 := parseZ_idem item v o hw ho
      have h2 := parseArr_idem item vs' os hw hos
      simp only [parseArrWith, h1, h2]
    · cases h
    · cases h
    · cases h
termination_by (sizeOf item, 1 + sizeOf vs)
end

-- =============================================================================
-- Page policy (app/config/pagePolicy.ts)
-- =============================================================================

/-- `PAGE_KINDS = ['site', 'p', 'demo'] as const`. -/
inductive PageKind where
  | site
  | p
  | demo
deriving DecidableEq, Repr

/-- The literal string of a `PageKind`. -/
def PageKind.str : PageKind → String
  | .site => "site"
  | .p => "p"
  | .demo => "demo"

/-- `PAGE_KINDS` in declaration order. -/
def PAGE_KINDS : List PageKind := [.site, .p, .demo]

/-- One row of the page policy matrix (`PageKindPolicy`). -/
structure PageKindPolicy where
  indexed : Bool
  sitemap : Bool
  prerender : Bool
  description : String
deriving Repr

/-- `PAGE_POLICY` — the policy matrix, restricted to the three `PageKind`s
(the `blog` row exists in the source but no claim touches it). -/
def PAGE_POLICY : PageKind → PageKindPolicy
  | .site =>
    { indexed := true, sitemap := true, prerender := false,
      description := "Public indexed pages (SEO-friendly)" }
  | .p =>
    { indexed := false, sitemap := false, prerender := false,
      description := "Private previews, temporary landing pages" }
  | .demo =>
    { indexed := false, sitemap := false, prerender := false,
      description := "Demo/showcase pages for clients" }

/-- `getNoindexKinds()`: kinds whose policy row is not indexed. -/
def getNoindexKinds : List PageKind :=
  PAGE_KINDS.filter (fun kind => !(PAGE_POLICY kind).indexed)

/-- `NOINDEX_KINDS` as derived in both `page.schema.ts` and
`page-loader.ts`. -/
def NOINDEX_KINDS : List PageKind := getNoindexKinds

/-- `forceNoindex(kind, pageSeoNoindex?)` (page.schema.ts / page-loader.ts):
membership of the never-indexed set forces `true`; otherwise
`pageSeoNoindex ?? false`. -/
def forceNoindex (kind : PageKind) (pageSeoNoindex : Option Bool) : Bool :=
  if NOINDEX_KINDS.contains kind then
    true
  else
    pageSeoNoindex.getD false

-- =============================================================================
-- Shell slot rules (app/utils/runtimeError.ts, mirrored in page-loader.ts)
-- =============================================================================

/-- The two shell slots. -/
inductive ShellSlot where
  | header
  | footer
deriving DecidableEq, Repr

/-- `SHELL_SLOT_PREFIXES`: the required id namespace of each slot. -/
def SHELL_SLOT_PREFIXES : ShellSlot → String
  | .header => "header."
  | .footer => "footer."

/-- The slot's plain name, used in diagnostic messages. -/
def ShellSlot.str : ShellSlot → String
  | .header => "header"
  | .footer => "footer"

/-- `isValidShellSlot(shellId, slot)`: the id must start with the slot's
namespace followed by a dot. -/
def isValidShellSlot (shellId : String) (slot : ShellSlot) : Bool :=
  jsStartsWith (SHELL_SLOT_PREFIXES slot) shellId

/-- `getExpectedSlotForShellId(shellId)`: the slot implied by the id's
namespace, or `null` when neither namespace matches. -/
def getExpectedSlotForShellId (shellId : String) : Option ShellSlot :=
  if jsStartsWith "header." shellId then some .header
  else if jsStartsWith "footer." shellId then some .footer
  else none

-- =============================================================================
-- Override resolver (SectionRenderer.vue `sectionStyle`, ThemeScope.vue
-- `inlineStyle`)
-- =============================================================================

/-- One iteration of the override-filtering loop shared by
`sectionStyle` (SectionRenderer.vue) and `inlineStyle` (ThemeScope.vue):
a key starting with `--` is kept in the styles record, any other key emits
a `console.warn` diagnostic in dev and is dropped. -/
def overrideStep (isDev : Bool) (warn : String → String)
    (acc : List (String × String) × List String) (kv : String × String) :
    List (String × String) × List String :=
  if jsStartsWith "--" kv.fst then (acc.fst ++ [kv], acc.snd)
  else if isDev then (acc.fst, acc.snd ++ [warn kv.fst])
  else acc

/-- `sectionStyle` (SectionRenderer.vue): keep only override keys starting
with `--`; warn (in dev) for every rejected key; return `undefined` when
the input is absent or the filtered result is empty.  The second component
collects the emitted `console.warn` diagnostics. -/
def sectionStyle (isDev : Bool) (sectionId : String)
    (overrides : Option (List (String × String))) :
    Option (List (String × String)) × List String :=
  match overrides with
  | none => (none, [])
  | some entries =>
    let r := entries.foldl
      (overrideStep isDev (fun k =>
        "[SectionRenderer] Invalid override key \"" ++ k ++
          "\" in section \"" ++ sectionId ++ "\" — must start with \"--\""))
      ([], [])
    (if r.fst.isEmpty then none else some r.fst, r.snd)

/-- `inlineStyle` (ThemeScope.vue): identical filtering at page scope. -/
def inlineStyle (isDev : Bool)
    (overrides : Option (List (String × String))) :
    Option (List (String × String)) × List String :=
  match overrides with
  | none => (none, [])
  | some entries =>
    let r := entries.foldl
      (overrideStep isDev (fun k =>
        "[ThemeScope] Invalid override key \"" ++ k ++ "\" — must start with \"--\""))
      ([], [])
    (if r.fst.isEmpty then none else some r.fst, r.snd)

/-- `effectivePack` (SectionRenderer.vue): `props.section.pack ||
props.pagePack` — JS `||`, so an empty-string section pack falls through to
the page pack. -/
def effectivePack (sectionPack pagePack : Option String) : Option String :=
  match sectionPack with
  | some s => if s ≠ "" then some s else pagePack
  | none => pagePack

-- =============================================================================
-- Runtime i18n config (page-loader.ts)
-- =============================================================================

/-- Dedupe keeping the first occurrence of each element (`new Set`
iteration order). -/
def dedupeFirst (seen : List String) : List String → List String
  | [] => []
  | x :: xs =>
    if x ∈ seen then dedupeFirst seen xs
    else x :: dedupeFirst (x :: seen) xs

/-- `uniq(list)`: `Array.from(new Set(list.filter(Boolean)))` — drop falsy
(empty) strings, then dedupe preserving first-occurrence order. -/
def uniq (list : List String) : List String :=
  dedupeFirst [] (list.filter (fun s => jsTruthy (.jstr s)))

/-- The `config.public` fields read by the loader; `none` models an unset
runtime key. -/
structure RuntimeConfigPublic where
  defaultLocale : Option String
  locales : Option (List String)
  localeMeta : Option (List (String × String))
  siteUrl : Option String
  shellStrictPrivate : Bool

/-- The normalized i18n view (`RuntimeI18n`). -/
structure RuntimeI18n where
  defaultLocale : String
  locales : List String
  localeMeta : List (String × String)
  siteUrl : String
deriving Repr

/-- `getRuntimeI18n(event)`: read the runtime config with JS `||`
fallbacks (an unset or empty-string `defaultLocale` falls back to `"fr"`;
an unset `locales` array falls back to `['fr','en']` — an empty array is
truthy in JS and is kept), then normalize so the default locale is always
in `locales`. -/
def getRuntimeI18n (config : RuntimeConfigPublic) : RuntimeI18n :=
  let defaultLocale :=
    match config.defaultLocale with
    | some s => if s ≠ "" then s else "fr"
    | none => "fr"
  let locales := config.locales.getD ["fr", "en"]
  let localeMeta := config.localeMeta.getD [("fr", "fr-FR"), ("en", "en-US")]
  let siteUrl :=
    match config.siteUrl with
    | some s => if s ≠ "" then s else "https://example.com"
    | none => "https://example.com"
  { defaultLocale := defaultLocale,
    locales := uniq (defaultLocale :: locales),
    localeMeta := localeMeta,
    siteUrl := siteUrl }

-- =============================================================================
-- Content path & shell normalization (page-loader.ts)
-- =============================================================================

/-- `buildContentPath(kind, slug, locale)`: the home page (empty or
`"index"` slug) resolves to the kind's directory root. -/
def buildContentPath (kind : PageKind) (slug locale : String) : String :=
  if slug = "" || slug = "index" then
    "/" ++ locale ++ "/pages/" ++ kind.str
  else
    "/" ++ locale ++ "/pages/" ++ kind.str ++ "/" ++ slug

/-- `normalizeShellComponent(value)`: `null` and `undefined` pass through;
a bare string becomes `{id, props: {}}`; an object carrying an `id` key is
coerced to `{id, props: props || {}}`; everything else (numbers, booleans,
arrays, objects without `id`) normalizes to `undefined`. -/
def normalizeShellComponent (value : JsValue) : JsValue :=
  match value with
  | .jnull => .jnull
  | .undefined => .undefined
  | .jstr s => .jobj [("id", .jstr s), ("props", .jobj [])]
  | .jobj fields =>
    if jsHasKey fields "id" then
      .jobj [("id", jsGet fields "id"),
             ("props",
               if jsTruthy (jsGet fields "props") then jsGet fields "props"
               else .jobj [])]
    else .undefined
  | _ => .undefined

/-- `normalizeShell(shell)`: non-objects normalize to `{}`; arrays pass the
JS `typeof` check but carry no `header`/`footer` properties. -/
def normalizeShell (shell : JsValue) : JsValue :=
  match shell with
  | .jobj fields =>
    .jobj [("header", normalizeShellComponent (jsGet fields "header")),
           ("footer", normalizeShellComponent (jsGet fields "footer"))]
  | .jarr _ => .jobj [("header", .undefined), ("footer", .undefined)]
  | _ => .jobj []

-- =============================================================================
-- Registered schemas (per-section / per-shell schema.ts files)
-- =============================================================================

/-- `z.string()` with no checks. -/
def zstr : Zod := .strS []

/-- `z.string().min(1)`. -/
def zstrMin1 : Zod := .strS [fun s => 1 ≤ s.length]

/-- `z.string().default(d)`. -/
def zstrD (d : String) : Zod := .defaultS (.strS []) (.jstr d)

/-- Abstraction of Zod's `.url()` format check.  No claim depends on the
exact URL grammar — only on `.url()` being a pure predicate of the string —
so it is modelled as a scheme-separator test. -/
def zodUrlCheck (s : String) : Bool := (s.splitOn "://").length ≥ 2

/-- `z.number().int().min(0).max(64)` — the `.int()` check is vacuous in
the integer value model. -/
def zNum0to64 : Zod := .numS [fun n => 0 ≤ n, fun n => n ≤ 64]

-- hero.split (sections/hero.split/schema.ts)

/-- `HeroSplitSchema`. -/
def HeroSplitSchema : Zod := .objectS (ZFields.ofList [
  ("title", zstrMin1),
  ("subtitle", .optionalS zstr),
  ("ctaLabel", .optionalS zstr),
  ("ctaHref", .optionalS zstr),
  ("imageUrl", .optionalS (.strS [zodUrlCheck]))])

-- faq.simple (sections/faq.simple/schema.ts)

/-- `FaqItemSchema`. -/
def FaqItemSchema : Zod := .objectS (ZFields.ofList [
  ("q", zstrMin1),
  ("a", zstrMin1)])

/-- `FaqSimpleSchema`. -/
def FaqSimpleSchema : Zod := .objectS (ZFields.ofList [
  ("title", .optionalS zstr),
  ("items", .arrayS FaqItemSchema [fun n => 1 ≤ n])])

-- layout.stack (sections/layout.stack/schema.ts)

/-- `LayoutStackSchema`. -/
def LayoutStackSchema : Zod := .objectS (ZFields.ofList [
  ("gap", .optionalS zNum0to64),
  ("align", .optionalS (.enumS ["start", "center", "end"])),
  ("maxWidth", .optionalS zstr),
  ("paddingY", .optionalS zNum0to64),
  ("paddingX", .optionalS zNum0to64),
  ("content", .optionalS zstr)])

-- layout.split (sections/layout.split/schema.ts)

/-- `LayoutSplitSchema`. -/
def LayoutSplitSchema : Zod := .objectS (ZFields.ofList [
  ("ratio", .optionalS (.enumS ["1:1", "1:2", "2:1", "1:3", "3:1"])),
  ("reverse", .optionalS .boolS),
  ("gap", .optionalS zNum0to64),
  ("align", .optionalS (.enumS ["start", "center", "end"])),
  ("paddingY", .optionalS zNum0to64),
  ("left", .optionalS zstr),
  ("right", .optionalS zstr),
  ("leftImage", .optionalS (.strS [zodUrlCheck])),
  ("rightImage", .optionalS (.strS [zodUrlCheck]))])

-- interweb.hero (sections/interweb.hero/schema.ts)

/-- `TrustItemSchema`. -/
def TrustItemSchema : Zod := .objectS (ZFields.ofList [("label", zstrMin1)])

/-- `interweb.hero` props schema. -/
def interwebHeroSchema : Zod := .objectS (ZFields.ofList [
  ("anchorId", .optionalS zstr),
  ("showPill", .defaultS .boolS (.jbool true)),
  ("pillText", zstrD "Disponible maintenant"),
  ("titleHtml",
    zstrD "Votre site professionnel,<br>prêt en <span class=\"text-accent\">24 heures.</span>"),
  ("subtitleHtml",
    zstrD "Un site internet clair, sérieux et moderne, conçu pour des professionnels comme vous. <strong style=\"color: var(--color-text-primary);\">Vous n\x27avez rien à faire</strong>, on s\x27occupe de tout."),
  ("ctaLabel", zstrD "Obtenir mon site gratuitement"),
  ("ctaHref", zstrD "#contact"),
  ("trustStatement",
    zstrD "<strong style=\"color: var(--color-text-primary);\">+ de 150 professionnels</strong> nous font confiance"),
  ("trustItems", .defaultS (.arrayS TrustItemSchema [])
    (.jarr [.jobj [("label", .jstr "Sans engagement")],
            .jobj [("label", .jstr "Satisfait ou remboursé")],
            .jobj [("label", .jstr "Support inclus")]]))])

-- interweb.features (sections/interweb.features/schema.ts)

/-- `FeatureCardSchema`. -/
def FeatureCardSchema : Zod := .objectS (ZFields.ofList [
  ("gradient", .defaultS (.enumS ["blue", "orange", "purple", "green", "teal"]) (.jstr "blue")),
  ("iconPath", zstr),
  ("title", zstrMin1),
  ("text", zstr)])

/-- `interweb.features` props schema. -/
def interwebFeaturesSchema : Zod := .objectS (ZFields.ofList [
  ("anchorId", .optionalS zstr),
  ("titleHtml", zstrD "Pour qui est fait <span class=\"text-accent\">Interweb</span> ?"),
  ("subtitle",
    zstrD "Pour les professionnels qui veulent un site internet efficace, sans prise de tête."),
  ("cards", .defaultS (.arrayS FeatureCardSchema [])
    (.jarr [
      .jobj [("gradient", .jstr "blue"),
             ("iconPath", .jstr "M14.7 6.3a1 1 0 0 0 0 1.4l1.6 1.6a1 1 0 0 0 1.4 0l3.77-3.77a6 6 0 0 1-7.94 7.94l-6.91 6.91a2.12 2.12 0 0 1-3-3l6.91-6.91a6 6 0 0 1 7.94-7.94l-3.76 3.76z"),
             ("title", .jstr "Artisans"),
             ("text", .jstr "Plombiers, électriciens, menuisiers, peintres...")],
      .jobj [("gradient", .jstr "orange"),
             ("iconPath", .jstr "M16 21v-2a4 4 0 0 0-4-4H6a4 4 0 0 0-4 4v2M9 7a4 4 0 1 0 0-8 4 4 0 0 0 0 8ZM22 21v-2a4 4 0 0 0-3-3.87M16 3.13a4 4 0 0 1 0 7.75"),
             ("title", .jstr "Indépendants"),
             ("text", .jstr "Consultants, coachs, formateurs, freelances...")],
      .jobj [("gradient", .jstr "purple"),
             ("iconPath", .jstr "M2 3h6a4 4 0 0 1 4 4v14a3 3 0 0 0-3-3H2zM22 3h-6a4 4 0 0 0-4 4v14a3 3 0 0 1 3-3h7z"),
             ("title", .jstr "Professions libérales"),
             ("text", .jstr "Avocats, médecins, architectes, comptables...")],
      .jobj [("gradient", .jstr "green"),
             ("iconPath", .jstr "M6 22V4a2 2 0 0 1 2-2h8a2 2 0 0 1 2 2v18ZM6 12H4a2 2 0 0 0-2 2v6a2 2 0 0 0 2 2h2M18 9h2a2 2 0 0 1 2 2v9a2 2 0 0 1-2 2h-2M10 6h4M10 10h4M10 14h4M10 18h4"),
             ("title", .jstr "TPE / PME"),
             ("text", .jstr "Commerces, restaurants, agences, startups...")]]))])

-- interweb.bento (sections/interweb.bento/schema.ts)

/-- `BentoVisualTypeSchema`. -/
def BentoVisualTypeSchema : Zod := .enumS ["avatars", "guarantee", "pricing", "calendar"]

/-- `BentoCardSchema`. -/
def BentoCardSchema : Zod := .objectS (ZFields.ofList [
  ("gradient", .defaultS (.enumS ["blue", "green", "orange", "teal", "purple"]) (.jstr "blue")),
  ("iconPath", zstr),
  ("title", zstrMin1),
  ("text", zstr),
  ("visualType", .optionalS BentoVisualTypeSchema)])

/-- `interweb.bento` props schema. -/
def interwebBentoSchema : Zod := .objectS (ZFields.ofList [
  ("anchorId", .optionalS zstr),
  ("titleHtml", zstrD "Pourquoi choisir <span class=\"text-accent\">Interweb</span> ?"),
  ("subtitle", zstrD "Ce qui nous distingue des autres solutions."),
  ("cards", .defaultS (.arrayS BentoCardSchema [])
    (.jarr [
      .jobj [("gradient", .jstr "blue"),
             ("iconPath", .jstr "M16 21v-2a4 4 0 0 0-4-4H6a4 4 0 0 0-4 4v2M9 7a4 4 0 1 0 0-8 4 4 0 0 0 0 8ZM22 21v-2a4 4 0 0 0-3-3.87M16 3.13a4 4 0 0 1 0 7.75"),
             ("title", .jstr "Une vraie équipe, pas un outil"),
             ("text", .jstr "Pas de logiciel à apprendre. Pas de template à configurer. Des humains créent votre site pour vous."),
             ("visualType", .jstr "avatars")],
      .jobj [("gradient", .jstr "green"),
             ("iconPath", .jstr "M12 22s8-4 8-10V5l-8-3-8 3v7c0 6 8 10 8 10z"),
             ("title", .jstr "Zéro engagement"),
             ("text", .jstr "La première version est gratuite. Si ça ne vous plaît pas, on arrête là. 30 jours satisfait ou remboursé."),
             ("visualType", .jstr "guarantee")],
      .jobj [("gradient", .jstr "orange"),
             ("iconPath", .jstr "M2 12s3-7 10-7 10 7 10 7-3 7-10 7-10-7-10-7ZM12 12a3 3 0 1 0 0-6 3 3 0 0 0 0 6Z"),
             ("title", .jstr "Simple et transparent"),
             ("text", .jstr "Pas de jargon technique, pas de frais cachés. Un tarif clair, et c\x27est tout."),
             ("visualType", .jstr "pricing")],
      .jobj [("gradient", .jstr "teal"),
             ("iconPath", .jstr "M13 2 3 14h9l-1 8 10-12h-9l1-8z"),
             ("title", .jstr "Rapide"),
             ("text", .jstr "Un vrai site en 24 heures. Pas une maquette, un site que vous pouvez montrer à vos clients."),
             ("visualType", .jstr "calendar")]]))])

-- interweb.testimonials (sections/interweb.testimonials/schema.ts)

/-- `TestimonialSchema`. -/
def TestimonialSchema : Zod := .objectS (ZFields.ofList [
  ("text", zstrMin1),
  ("name", zstrMin1),
  ("role", zstr),
  ("rating", zstrD "5.0"),
  ("avatarGradient", zstrD "linear-gradient(135deg, #60a5fa, #3b82f6)")])

/-- `interweb.testimonials` props schema. -/
def interwebTestimonialsSchema : Zod := .objectS (ZFields.ofList [
  ("anchorId", .optionalS zstr),
  ("titleHtml", zstrD "Ils nous font <span class=\"text-accent\">confiance</span>"),
  ("overallRating", zstrD "5/5"),
  ("ratingDescription", zstrD "basé sur les retours clients"),
  ("testimonials", .defaultS (.arrayS TestimonialSchema [])
    (.jarr [
      .jobj [("text", .jstr "Je n\x27y connaissais rien en sites web. En 24h j\x27avais quelque chose de propre à montrer. Exactement ce qu\x27il me fallait."),
             ("name", .jstr "Marc L."),
             ("role", .jstr "Électricien • Lyon"),
             ("rating", .jstr "5.0"),
             ("avatarGradient", .jstr "linear-gradient(135deg, #60a5fa, #3b82f6)")],
      .jobj [("text", .jstr "Enfin une solution simple. Pas besoin de comprendre le technique. Ils font, et c\x27est bien fait."),
             ("name", .jstr "Sophie D."),
             ("role", .jstr "Ostéopathe • Bordeaux"),
             ("rating", .jstr "5.0"),
             ("avatarGradient", .jstr "linear-gradient(135deg, #a78bfa, #8b5cf6)")],
      .jobj [("text", .jstr "Le rapport qualité/prix est imbattable. J\x27ai eu des devis à 3000€ ailleurs. Très satisfait."),
             ("name", .jstr "Thomas B."),
             ("role", .jstr "Gérant d\x27agence • Nantes"),
             ("rating", .jstr "5.0"),
             ("avatarGradient", .jstr "linear-gradient(135deg, #34d399, #10b981)")]]))])

-- interweb.recap (sections/interweb.recap/schema.ts)

/-- `KpiCardSchema`. -/
def KpiCardSchema : Zod := .objectS (ZFields.ofList [
  ("type", .defaultS (.enumS ["glass", "inverted"]) (.jstr "glass")),
  ("wide", .defaultS .boolS (.jbool false)),
  ("gradient", .optionalS (.enumS ["blue", "green", "orange", "purple"])),
  ("value", zstrMin1),
  ("unit", .optionalS zstr),
  ("label", .optionalS zstr),
  ("description", zstr)])

/-- `interweb.recap` props schema. -/
def interwebRecapSchema : Zod := .objectS (ZFields.ofList [
  ("anchorId", .optionalS zstr),
  ("cards", .defaultS (.arrayS KpiCardSchema [])
    (.jarr [
      .jobj [("type", .jstr "glass"), ("wide", .jbool true), ("gradient", .jstr "blue"),
             ("value", .jstr "24h"), ("label", .jstr "Délai de livraison"),
             ("description", .jstr "Votre première version de site est prête en moins de 24 heures après votre demande.")],
      .jobj [("type", .jstr "inverted"), ("wide", .jbool false),
             ("value", .jstr "0"), ("unit", .jstr "€"),
             ("description", .jstr "Pour votre première version. Sans engagement.")],
      .jobj [("type", .jstr "glass"), ("wide", .jbool false), ("gradient", .jstr "green"),
             ("value", .jstr "100"), ("unit", .jstr "%"),
             ("description", .jstr "Satisfaction ou remboursé sous 30 jours.")],
      .jobj [("type", .jstr "glass"), ("wide", .jbool true), ("gradient", .jstr "orange"),
             ("value", .jstr "Support"), ("unit", .jstr "Humain"),
             ("description", .jstr "Vous n\x27êtes jamais seul grâce à notre support. On s\x27occupe de tout, vous n\x27avez qu\x27à demander.")]]))])

-- interweb.results (sections/interweb.results/schema.ts)

/-- `CaseSchema`. -/
def CaseSchema : Zod := .objectS (ZFields.ofList [
  ("category", zstrMin1),
  ("title", zstrMin1),
  ("before", zstr),
  ("after", zstr),
  ("result", zstr),
  ("gradient", .defaultS (.enumS ["blue", "purple", "orange", "green"]) (.jstr "blue"))])

/-- `interweb.results` props schema. -/
def interwebResultsSchema : Zod := .objectS (ZFields.ofList [
  ("anchorId", .optionalS zstr),
  ("titleHtml",
    zstrD "Des résultats <span class=\"text-muted\" style=\"font-style: italic; font-weight: 500;\">concrets</span>"),
  ("subtitle", zstrD "Quelques exemples de transformations réalisées."),
  ("cases", .defaultS (.arrayS CaseSchema [])
    (.jarr [
      .jobj [("category", .jstr "Artisan"), ("title", .jstr "Plombier indépendant"),
             ("before", .jstr "Aucune présence en ligne"),
             ("after", .jstr "→ Site pro avec formulaire de contact"),
             ("result", .jstr "+5 demandes / semaine"), ("gradient", .jstr "blue")],
      .jobj [("category", .jstr "Profession libérale"), ("title", .jstr "Cabinet d\x27avocat"),
             ("before", .jstr "Site vieillissant, pas adapté mobile"),
             ("after", .jstr "→ Site moderne et sobre"),
             ("result", .jstr "Image professionnelle renforcée"), ("gradient", .jstr "purple")],
      .jobj [("category", .jstr "Indépendant"), ("title", .jstr "Consultant en management"),
             ("before", .jstr "Uniquement présent sur LinkedIn"),
             ("after", .jstr "→ Site vitrine complet"),
             ("result", .jstr "Crédibilité accrue"), ("gradient", .jstr "orange")]])),
  ("showCta", .defaultS .boolS (.jbool true)),
  ("ctaLabel", zstrD "Obtenir mon site gratuitement"),
  ("ctaHref", zstrD "#contact"),
  ("ctaHelperText", zstrD "C\x27est gratuit et sans engagement.")])

-- interweb.contact (sections/interweb.contact/schema.ts)

/-- `ContactHighlightSchema`. -/
def ContactHighlightSchema : Zod := .objectS (ZFields.ofList [
  ("iconPath", zstr),
  ("title", zstrMin1),
  ("text", zstr)])

/-- `DirectContactSchema`. -/
def DirectContactSchema : Zod := .objectS (ZFields.ofList [
  ("avatarUrl", .optionalS zstr),
  ("avatarGradient", zstrD "linear-gradient(135deg, #0071e3, #5856d6)"),
  ("role", zstrD "Responsable Projets"),
  ("name", zstrD "Thomas Martin"),
  ("email", zstrD "contact@gointerweb.com"),
  ("linkLabel", zstrD "Contacter directement")])

/-- `FormFieldSchema`. -/
def FormFieldSchema : Zod := .objectS (ZFields.ofList [
  ("name", .enumS ["name", "email", "message"]),
  ("label", zstr),
  ("required", .defaultS .boolS (.jbool false)),
  ("placeholder", zstr),
  ("type", .defaultS (.enumS ["text", "email", "textarea"]) (.jstr "text"))])

/-- `interweb.contact` props schema. -/
def interwebContactSchema : Zod := .objectS (ZFields.ofList [
  ("anchorId", .optionalS zstr),
  ("formSubtitle", zstrD "Interweb Support"),
  ("formTitle", zstrD "Besoin d\x27aide ?"),
  ("formFields", .defaultS (.arrayS FormFieldSchema [])
    (.jarr [
      .jobj [("name", .jstr "name"), ("label", .jstr "Votre nom"),
             ("required", .jbool true), ("placeholder", .jstr "Jean Dupont"),
             ("type", .jstr "text")],
      .jobj [("name", .jstr "email"), ("label", .jstr "Email"),
             ("required", .jbool true), ("placeholder", .jstr "vous@exemple.com"),
             ("type", .jstr "email")],
      .jobj [("name", .jstr "message"), ("label", .jstr "Message"),
             ("required", .jbool false),
             ("placeholder", .jstr "Décrivez votre projet ou posez vos questions..."),
             ("type", .jstr "textarea")]])),
  ("formSubmitLabel", zstrD "Envoyer le message"),
  ("formDisclaimer",
    zstrD "En soumettant, vous acceptez nos Conditions et notre Politique de Confidentialité."),
  ("formAction", zstrD "mailto:contact@gointerweb.com"),
  ("infoTitle", zstrD "Parlons de votre projet."),
  ("infoDescription",
    zstrD "Site vitrine, questions ou partenariats — dites-nous ce dont vous avez besoin. Nous répondons sous 24h."),
  ("highlights", .defaultS (.arrayS ContactHighlightSchema [])
    (.jarr [
      .jobj [("iconPath", .jstr "M12 6v6h4M12 2a10 10 0 1 0 0 20 10 10 0 0 0 0-20z"),
             ("title", .jstr "Réponse rapide"),
             ("text", .jstr "La plupart des messages reçoivent une réponse en moins de 24h.")],
      .jobj [("iconPath", .jstr "M16 10a4 4 0 0 1-8 0M3.103 6.034h17.794M3.4 5.467a2 2 0 0 0-.4 1.2V20a2 2 0 0 0 2 2h14a2 2 0 0 0 2-2V6.667a2 2 0 0 0-.4-1.2l-2-2.667A2 2 0 0 0 17 2H7a2 2 0 0 0-1.6.8z"),
             ("title", .jstr "Étapes claires"),
             ("text", .jstr "Nous vous envoyons un plan concis et un calendrier.")]])),
  ("directContact", .optionalS DirectContactSchema)])

-- Shell schemas (shells/*/schema.ts)

/-- `header.default` props schema. -/
def headerDefaultSchema : Zod := .objectS (ZFields.ofList [
  ("logoText", .defaultS (.optionalS zstr) (.jstr "Logo")),
  ("logoHref", .defaultS (.optionalS zstr) (.jstr "/")),
  ("navItems", .defaultS
    (.optionalS (.arrayS (.objectS (ZFields.ofList [("label", zstr), ("href", zstr)])) []))
    (.jarr []))])

/-- `header.minimal` props schema. -/
def headerMinimalSchema : Zod := .objectS (ZFields.ofList [
  ("logoText", .defaultS (.optionalS zstr) (.jstr "Logo")),
  ("logoHref", .defaultS (.optionalS zstr) (.jstr "/"))])

/-- `footer.default` props schema.  The source's `year` default is
`new Date().getFullYear()`, evaluated once at module load; it is carried
here as the parameter `currentYear`. -/
def footerDefaultSchema (currentYear : Int) : Zod := .objectS (ZFields.ofList [
  ("companyName", .defaultS (.optionalS zstr) (.jstr "Company")),
  ("year", .defaultS (.optionalS (.numS [])) (.jnum currentYear)),
  ("links", .defaultS
    (.optionalS (.arrayS (.objectS (ZFields.ofList [("label", zstr), ("href", zstr)])) []))
    (.jarr []))])

/-- `NavLinkSchema` (header.interweb). -/
def NavLinkSchema : Zod := .objectS (ZFields.ofList [
  ("label", zstrMin1),
  ("href", zstrMin1)])

/-- `header.interweb` props schema. -/
def headerInterwebSchema : Zod := .objectS (ZFields.ofList [
  ("logoText", zstrD "interweb"),
  ("logoHref", zstrD "/"),
  ("links", .defaultS (.arrayS NavLinkSchema [])
    (.jarr [
      .jobj [("label", .jstr "Fonctionnalités"), ("href", .jstr "#features")],
      .jobj [("label", .jstr "Comment ça marche"), ("href", .jstr "#how")],
      .jobj [("label", .jstr "Avis"), ("href", .jstr "#testimonials")],
      .jobj [("label", .jstr "Tarifs"), ("href", .jstr "#pricing")]])),
  ("ctaLabel", zstrD "Commencer"),
  ("ctaHref", zstrD "#contact"),
  ("enableThemeToggle", .defaultS .boolS (.jbool true))])

/-- `FooterLinkSchema` (footer.interweb). -/
def FooterLinkSchema : Zod := .objectS (ZFields.ofList [
  ("label", zstrMin1),
  ("href", zstrMin1)])

/-- `footer.interweb` props schema. -/
def footerInterwebSchema : Zod := .objectS (ZFields.ofList [
  ("brand", zstrD "interweb"),
  ("tagline",
    zstrD "Création de sites internet professionnels. Première version gratuite, sans engagement."),
  ("copyright", zstrD "© 2025 Interweb. Tous droits réservés."),
  ("links", .defaultS (.arrayS FooterLinkSchema [])
    (.jarr [
      .jobj [("label", .jstr "Confidentialité"), ("href", .jstr "/confidentialite")],
      .jobj [("label", .jstr "CGU"), ("href", .jstr "/cgu")],
      .jobj [("label", .jstr "CGV"), ("href", .jstr "/cgv")],
      .jobj [("label", .jstr "Mentions légales"), ("href", .jstr "/mentions-legales")]]))])

-- =============================================================================
-- Registries (SectionRegistry.ts / ShellRegistry.ts)
-- =============================================================================

/-- Insertion-order-preserving map update (`Map.prototype.set`): an
existing key keeps its position and gets the new value, a new key is
appended. -/
def mapSet {α : Type} (entries : List (String × α)) (k : String) (v : α) :
    List (String × α) :=
  if entries.any (fun e => e.fst == k) then
    entries.map (fun e => if e.fst == k then (k, v) else e)
  else entries ++ [(k, v)]

/-- `Map.prototype.get`. -/
def regGet {α : Type} (entries : List (String × α)) (k : String) : Option α :=
  (entries.find? (fun e => e.fst == k)).map Prod.snd

/-- A section registration record.  The source entry also carries the lazy
Vue `component` and the `fixtures` array; both are opaque to every claim
settled here and are omitted. -/
structure SectionEntry where
  id : String
  schema : Zod

/-- `registerSection(entry)`: `registry.set(entry.id, entry)` (a duplicate
id only logs a warning; last write wins). -/
def registerSection (reg : List (String × SectionEntry)) (entry : SectionEntry) :
    List (String × SectionEntry) :=
  mapSet reg entry.id entry

/-- The module-load registration sequence of `SectionRegistry.ts`, in
source order. -/
def sectionRegistrations : List SectionEntry :=
  [ { id := "hero.split", schema := HeroSplitSchema },
    { id := "faq.simple", schema := FaqSimpleSchema },
    { id := "layout.stack", schema := LayoutStackSchema },
    { id := "layout.split", schema := LayoutSplitSchema },
    { id := "interweb.hero", schema := interwebHeroSchema },
    { id := "interweb.features", schema := interwebFeaturesSchema },
    { id := "interweb.bento", schema := interwebBentoSchema },
    { id := "interweb.testimonials", schema := interwebTestimonialsSchema },
    { id := "interweb.recap", schema := interwebRecapSchema },
    { id := "interweb.results", schema := interwebResultsSchema },
    { id := "interweb.contact", schema := interwebContactSchema } ]

/-- The section registry state after module initialization. -/
def sectionRegistry : List (String × SectionEntry) :=
  sectionRegistrations.foldl registerSection []

/-- `getSectionSchema(id)`. -/
def getSectionSchema (id : String) : Option Zod :=
  (regGet sectionRegistry id).map SectionEntry.schema

/-- `getRegisteredSectionIds()`: `Array.from(registry.keys())`. -/
def getRegisteredSectionIds : List String :=
  sectionRegistry.map Prod.fst

/-- `getAllSections()`: `Array.from(registry.values())` — insertion order,
no sorting. -/
def getAllSections (reg : List (String × SectionEntry)) : List SectionEntry :=
  reg.map Prod.snd

/-- The structured result shape shared by `validateSectionProps` and
`validateShellProps`: `{success: true, data} | {success: false, error}`.
Both functions always return this shape; they never throw. -/
inductive ValidationResult where
  | success (data : JsValue)
  | failure (error : String)
deriving DecidableEq, Repr

/-- `validateSectionProps(id, props)` (SectionRegistry.ts). -/
def validateSectionProps (id : String) (props : JsValue) : ValidationResult :=
  match regGet sectionRegistry id with
  | none => .failure ("Section \"" ++ id ++ "\" not found in registry")
  | some entry =>
    match parseZ entry.schema props with
    | .ok d => .success d
    | .error issues => .failure (String.intercalate "; " issues)

/-- A shell registration record (component and fixtures omitted, as for
sections). -/
structure ShellEntry where
  id : String
  slot : ShellSlot
  schema : Zod

/-- `registerShell(entry)`: the slot-namespace mismatch check only logs an
error; registration proceeds regardless. -/
def registerShell (reg : List (String × ShellEntry)) (entry : ShellEntry) :
    List (String × ShellEntry) :=
  mapSet reg entry.id entry

/-- The module-load registration sequence of `ShellRegistry.ts`, in source
order.  `currentYear` feeds `footer.default`'s `year` default. -/
def shellRegistrations (currentYear : Int) : List ShellEntry :=
  [ { id := "header.default", slot := .header, schema := headerDefaultSchema },
    { id := "header.minimal", slot := .header, schema := headerMinimalSchema },
    { id := "footer.default", slot := .footer, schema := footerDefaultSchema currentYear },
    { id := "header.interweb", slot := .header, schema := headerInterwebSchema },
    { id := "footer.interweb", slot := .footer, schema := footerInterwebSchema } ]

/-- The shell registry state after module initialization. -/
def shellRegistry (currentYear : Int) : List (String × ShellEntry) :=
  (shellRegistrations currentYear).foldl registerShell []

/-- Lexicographic character-list order by code point: the model of
`a.localeCompare(b) <= 0` for the ASCII shell/section ids this code
compares. -/
def charListLe : List Char → List Char → Bool
  | [], _ => true
  | _ :: _, [] => false
  | a :: as, b :: bs =>
    if a.val.toNat < b.val.toNat then true
    else if b.val.toNat < a.val.toNat then false
    else charListLe as bs

/-- String order by code points (`localeCompare` on ASCII ids). -/
def strLe (a b : String) : Bool := charListLe a.data b.data

theorem charListLe_total (as bs : List Char) :
    charListLe as bs = true ∨ charListLe bs as = true := by
  induction as generalizing bs with
  | nil => left; rfl
  | cons a as ih =>
    cases bs with
    | nil => right; rfl
    | cons b bs =>
      rcases Nat.lt_trichotomy a.val.toNat b.val.toNat with h | h | h
      · left; simp [charListLe, h]
      · rcases ih bs with h1 | h1
        · left; simp [charListLe, h, h1]
        · right; simp [charListLe, h, h1]
      · right; simp [charListLe, h]

theorem charListLe_trans (as bs cs : List Char)
    (h1 : charListLe as bs = true) (h2 : charListLe bs cs = true) :
    charListLe as cs = true := by
  induction as generalizing bs cs with
  | nil => rfl
  | cons a as ih =>
    cases bs with
    | nil => simp [charListLe] at h1
    | cons b bs =>
      cases cs with
      | nil => simp [charListLe] at h2
      | cons c cs =>
        simp only [charListLe] at h1 h2 ⊢
        by_cases hab : a.val.toNat < b.val.toNat <;>
          by_cases hba : b.val.toNat < a.val.toNat <;>
          by_cases hbc : b.val.toNat < c.val.toNat <;>
          by_cases hcb : c.val.toNat < b.val.toNat <;>
          by_cases hac : a.val.toNat < c.val.toNat <;>
          by_cases hca : c.val.toNat < a.val.toNat <;>
          (try simp [hab, hba, hbc, hcb, hac, hca] at h1 h2 ⊢) <;>
          first
            | rfl
            | (exfalso; omega)
            | (exact ih bs cs h1 h2)

/-- Comparator order used by `getAllShells`: ascending `id`
(`a.id.localeCompare(b.id)`). -/
def shellIdLe (a b : ShellEntry) : Prop := strLe a.id b.id = true

instance : DecidableRel shellIdLe := fun a b => by
  unfold shellIdLe; infer_instance

instance : IsTotal ShellEntry shellIdLe :=
  ⟨fun a b => charListLe_total a.id.data b.id.data⟩

instance : IsTrans ShellEntry shellIdLe :=
  ⟨fun a b c h1 h2 => charListLe_trans a.id.data b.id.data c.id.data h1 h2⟩

/-- `getAllShells()`: `Array.from(registry.values()).sort((a, b) =>
a.id.localeCompare(b.id))` — a stable sort by id. -/
def getAllShells (reg : List (String × ShellEntry)) : List ShellEntry :=
  List.insertionSort shellIdLe (reg.map Prod.snd)

/-- `listShells()`: alias for `getAllShells`. -/
def listShells (reg : List (String × ShellEntry)) : List ShellEntry :=
  getAllShells reg

/-- `validateShellProps(id, props)` (ShellRegistry.ts). -/
def validateShellProps (currentYear : Int) (id : String) (props : JsValue) :
    ValidationResult :=
  match regGet (shellRegistry currentYear) id with
  | none => .failure ("Shell \"" ++ id ++ "\" not found in registry")
  | some entry =>
    match parseZ entry.schema props with
    | .ok d => .success d
    | .error issues => .failure (String.intercalate "; " issues)

-- =============================================================================
-- Whole-page schema and loader (page-loader.ts)
-- =============================================================================

/-- `CssOverridesSchema`: `z.record(z.string(), z.string()).refine(keys
all start with "--").optional()`. -/
def CssOverridesSchema : Zod :=
  .optionalS (.refineS .recordStrS
    (fun v =>
      match v with
      | .jobj fields => fields.all (fun kv => jsStartsWith "--" kv.fst)
      | _ => true)
    "Override keys must start with \"--\"")

/-- `PageSeoSchema`. -/
def PageSeoSchema : Zod := .objectS (ZFields.ofList [
  ("title", zstrMin1),
  ("description", zstrMin1),
  ("image", .optionalS zstr),
  ("noindex", .optionalS .boolS)])

/-- `PageShellSchema`: both slots use `ShellComponentSchema`
(`Zod.shellCompS`). -/
def PageShellSchema : Zod := .objectS (ZFields.ofList [
  ("header", .shellCompS),
  ("footer", .shellCompS)])

/-- `SectionDefSchema`.  `props: z.record(z.string(),
z.unknown()).optional().default({})` — the `.default` wrapper subsumes the
inner `.optional()`. -/
def SectionDefSchema : Zod := .objectS (ZFields.ofList [
  ("id", zstrMin1),
  ("pack", .optionalS zstr),
  ("props", .defaultS .recordUnknownS (.jobj [])),
  ("overrides", CssOverridesSchema)])

/-- `PageDefSchema` (server-side variant in `page-loader.ts`). -/
def PageDefSchema : Zod := .objectS (ZFields.ofList [
  ("kind", .enumS ["site", "p", "demo"]),
  ("slug", .optionalS zstr),
  ("packKey", .optionalS zstr),
  ("themeOverrides", CssOverridesSchema),
  ("seo", PageSeoSchema),
  ("shell", .defaultS PageShellSchema (.jobj [])),
  ("sections", .arrayS SectionDefSchema [fun n => 1 ≤ n])])

/-- JS nullish coalescing `a ?? b`. -/
def jsNullish (a b : JsValue) : JsValue :=
  match a with
  | .undefined => b
  | .jnull => b
  | v => v

/-- The field list of an object document (a non-object has no readable
properties). -/
def jsFieldsOf : JsValue → List (String × JsValue)
  | .jobj fields => fields
  | _ => []

/-- `validateShellSlots(shell, isDev, contentPath)`: for each truthy slot
value carrying a truthy `id`, the id must sit in the matching namespace;
otherwise a 500 error is thrown (verbose in dev, generic in production).
A non-string truthy `id` (unreachable from normalized YAML) is modelled as
the same thrown-error outcome as the `TypeError` it raises in JS. -/
def validateShellSlot1 (slotVal : JsValue) (slot : ShellSlot) (isDev : Bool)
    (contentPath : String) : Except String Unit :=
  let idv := jsGet (jsFieldsOf slotVal) "id"
  if jsTruthy slotVal && jsTruthy idv then
    match idv with
    | .jstr s =>
      if isValidShellSlot s slot then .ok ()
      else .error (if isDev then
        "Shell slot mismatch: \"" ++ s ++ "\" must start with \"" ++
          SHELL_SLOT_PREFIXES slot ++ "\" to be used in " ++ slot.str ++
          " slot (" ++ contentPath ++ ")"
        else "Invalid shell configuration")
    | _ => .error "Invalid shell configuration"
  else .ok ()

/-- Both slots of `validateShellSlots`, header first. -/
def validateShellSlots (shell : JsValue) (isDev : Bool) (contentPath : String) :
    Except String Unit :=
  match validateShellSlot1 (jsGet (jsFieldsOf shell) "header") .header isDev contentPath with
  | .error e => .error e
  | .ok _ =>
    validateShellSlot1 (jsGet (jsFieldsOf shell) "footer") .footer isDev contentPath

/-- The fetch stage of `loadPage` (lines 298-312): query the primary
content path; on a miss with a non-default locale, retry exactly once with
the default locale substituted.  The first component records every storage
query issued, in order. -/
def loadPageFetch (store : String → Option JsValue) (defaultLocale : String)
    (kind : PageKind) (slug locale : String) : List String × Option JsValue :=
  let contentPath := buildContentPath kind slug locale
  match store contentPath with
  | some raw => ([contentPath], some raw)
  | none =>
    if locale ≠ defaultLocale then
      let fallbackPath := buildContentPath kind slug defaultLocale
      ([contentPath, fallbackPath], store fallbackPath)
    else ([contentPath], none)

/-- `loadPage(event, {kind, slug, locale})`: `.ok none` is the NotFound
outcome (the function returns `null` and the caller handles the 404);
`.error` is a thrown `createError`.  On success the validated/coerced
`PageDef` value is returned. -/
def loadPage (store : String → Option JsValue) (config : RuntimeConfigPublic)
    (isDev : Bool) (kind : PageKind) (slug locale : String) :
    Except String (Option JsValue) :=
  let i18n := getRuntimeI18n config
  let shellStrictPrivate := config.shellStrictPrivate
  let contentPath := buildContentPath kind slug locale
  match (loadPageFetch store i18n.defaultLocale kind slug locale).snd with
  | none => .ok none
  | some rawPage =>
    let rawFields := jsFieldsOf rawPage
    let normalizedShell0 := normalizeShell (jsGet rawFields "shell")
    let header0 := jsGet (jsFieldsOf normalizedShell0) "header"
    let footer0 := jsGet (jsFieldsOf normalizedShell0) "footer"
    let normalizedShell :=
      if shellStrictPrivate && (kind == .p || kind == .demo) then
        if (header0 ≠ .jnull && header0 ≠ .undefined) || (footer0 ≠ .jnull && footer0 ≠ .undefined) then
          .jobj [("header", .jnull), ("footer", .jnull)]
        else normalizedShell0
      else normalizedShell0
    match validateShellSlots normalizedShell isDev contentPath with
    | .error e => .error e
    | .ok _ =>
      let pageData : JsValue := .jobj [
        ("kind", jsNullish (jsGet rawFields "kind") (.jstr kind.str)),
        ("slug", jsNullish (jsGet rawFields "slug") (.jstr slug)),
        ("packKey", jsGet rawFields "packKey"),
        ("themeOverrides", jsGet rawFields "themeOverrides"),
        ("seo", jsGet rawFields "seo"),
        ("shell", normalizedShell),
        ("sections", jsGet rawFields "sections")]
      match parseZ PageDefSchema pageData with
      | .error issues =>
        .error (if isDev then
          "Invalid page definition: " ++ String.intercalate ", " issues
          else "Invalid page configuration")
      | .ok d => .ok (some d)

-- =============================================================================
-- Helper lemmas for the claims
-- =============================================================================

/-- The override loop appends exactly the `--`-prefixed entries to the
styles accumulator and (in dev) one diagnostic per rejected key. -/
theorem overrideStep_foldl (isDev : Bool) (warn : String → String)
    (entries : List (String × String))
    (acc1 : List (String × String)) (acc2 : List String) :
    entries.foldl (overrideStep isDev warn) (acc1, acc2) =
      (acc1 ++ entries.filter (fun kv => jsStartsWith "--" kv.fst),
       acc2 ++ (if isDev then
         (entries.filter (fun kv => !jsStartsWith "--" kv.fst)).map
           (fun kv => warn kv.fst)
         else [])) := by
  induction entries generalizing acc1 acc2 with
  | nil => simp
  | cons kv rest ih =>
    by_cases hk : jsStartsWith "--" kv.fst
    · have hstep : overrideStep isDev warn (acc1, acc2) kv = (acc1 ++ [kv], acc2) := by
        simp [overrideStep, hk]
      simp only [List.foldl_cons, hstep]
      rw [ih]
      simp [hk]
    · by_cases hd : isDev
      · have hstep : overrideStep isDev warn (acc1, acc2) kv =
            (acc1, acc2 ++ [warn kv.fst]) := by
          simp [overrideStep, hk, hd]
        simp only [List.foldl_cons, hstep]
        rw [ih]
        simp [hk, hd]
      · have hstep : overrideStep isDev warn (acc1, acc2) kv = (acc1, acc2) := by
          simp [overrideStep, hk, hd]
        simp only [List.foldl_cons, hstep]
        rw [ih]
        simp [hk, hd]

theorem string_data_header : "header.".data = ['h', 'e', 'a', 'd', 'e', 'r', '.'] := rfl

theorem string_data_footer : "footer.".data = ['f', 'o', 'o', 't', 'e', 'r', '.'] := rfl

/-- No string carries both the `header.` and the `footer.` namespace. -/
theorem headerFooter_disjoint (s : String) :
    ¬(jsStartsWith "header." s = true ∧ jsStartsWith "footer." s = true) := by
  rintro ⟨h1, h2⟩
  rw [jsStartsWith, List.isPrefixOf_iff_prefix] at h1 h2
  obtain ⟨t1, ht1⟩ := h1
  obtain ⟨t2, ht2⟩ := h2
  rw [string_data_header] at ht1
  rw [string_data_footer] at ht2
  rw [← ht1] at ht2
  simp at ht2

/-- `dedupeFirst` yields a duplicate-free list avoiding the seen set. -/
theorem dedupeFirst_nodup (l : List String) (seen : List String) :
    (dedupeFirst seen l).Nodup ∧ ∀ x ∈ dedupeFirst seen l, x ∉ seen := by
  induction l generalizing seen with
  | nil => simp [dedupeFirst]
  | cons x xs ih =>
    by_cases hx : x ∈ seen
    · simp only [dedupeFirst, hx, if_true]
      exact ih seen
    · simp only [dedupeFirst, hx, if_false]
      obtain ⟨hnd, hnotin⟩ := ih (x :: seen)
      constructor
      · rw [List.nodup_cons]
        exact ⟨fun hmem => hnotin x hmem (List.mem_cons_self x seen), hnd⟩
      · intro y hy
        rcases List.mem_cons.mp hy with h1 | h2
        · exact h1 ▸ hx
        · intro hseen
          exact hnotin y h2 (List.mem_cons_of_mem x hseen)

/-- Every element produced by `dedupeFirst` comes from the input list. -/
theorem dedupeFirst_mem (l : List String) (seen : List String) :
    ∀ x ∈ dedupeFirst seen l, x ∈ l := by
  induction l generalizing seen with
  | nil => simp [dedupeFirst]
  | cons y ys ih =>
    intro x hx
    by_cases hy : y ∈ seen
    · simp only [dedupeFirst, hy, if_true] at hx
      exact List.mem_cons_of_mem y (ih seen x hx)
    · simp only [dedupeFirst, hy, if_false] at hx
      rcases List.mem_cons.mp hx with h1 | h2
      · exact h1 ▸ List.mem_cons_self y ys
      · exact List.mem_cons_of_mem y (ih (y :: seen) x h2)

/-- A found registry entry is a member of the underlying entry list. -/
theorem regGet_mem {α : Type} (l : List (String × α)) (k : String) (a : α)
    (h : regGet l k = some a) : ∃ kv ∈ l, kv.snd = a := by
  unfold regGet at h
  cases hf : l.find? (fun e => e.fst == k) with
  | none => rw [hf] at h; cases h
  | some kv =>
    rw [hf] at h
    exact ⟨kv, List.mem_of_find?_eq_some hf, by simpa using h⟩

/-- Every schema registered in the section registry is well-formed: field
names are distinct and every default value is a fixed point of its inner
schema. -/
theorem sectionRegistry_wf : ∀ e ∈ sectionRegistry, wfZ e.snd.schema = true := by
  decide

-- =============================================================================
-- Claims
-- =============================================================================

/-- C1: for every kind in the never-indexed set `{p, demo}` and every
boolean `b` (and also when `b` is absent), `forceNoindex(kind, b)` returns
`true` — an explicit `seo.noindex` of `false` is overridden; for
`kind = site`, `forceNoindex(site, b)` returns `b` when given and `false`
when absent. -/
theorem claim_C1_main :
    NOINDEX_KINDS = [.p, .demo] ∧
    (∀ b : Bool, forceNoindex .p (some b) = true) ∧
    (∀ b : Bool, forceNoindex .demo (some b) = true) ∧
    forceNoindex .p none = true ∧
    forceNoindex .demo none = true ∧
    (∀ b : Bool, forceNoindex .site (some b) = b) ∧
    forceNoindex .site none = false := by
  decide

/-- C3: `isValidShellSlot(shellId, slot)` holds exactly when `shellId`
starts with `"<slot>."`; no string is valid for both slots; and
`getExpectedSlotForShellId` returns exactly the slot whose namespace the id
carries, or `null` when the id carries neither `header.` nor `footer.`. -/
theorem claim_C3_main :
    (∀ (s : String) (slot : ShellSlot),
       isValidShellSlot s slot = jsStartsWith (SHELL_SLOT_PREFIXES slot) s) ∧
    (∀ s : String,
       ¬(isValidShellSlot s .header = true ∧ isValidShellSlot s .footer = true)) ∧
    (∀ (s : String) (slot : ShellSlot),
       getExpectedSlotForShellId s = some slot ↔ isValidShellSlot s slot = true) ∧
    (∀ s : String,
       getExpectedSlotForShellId s = none ↔
         (isValidShellSlot s .header = false ∧ isValidShellSlot s .footer = false)) := by
  refine ⟨fun s slot => rfl, fun s => headerFooter_disjoint s, ?_, ?_⟩
  · intro s slot
    cases slot with
    | header =>
      unfold getExpectedSlotForShellId isValidShellSlot SHELL_SLOT_PREFIXES
      by_cases h1 : jsStartsWith "header." s
      · simp [h1]
      · by_cases h2 : jsStartsWith "footer." s <;> simp [h1, h2]
    | footer =>
      unfold getExpectedSlotForShellId isValidShellSlot SHELL_SLOT_PREFIXES
      by_cases h1 : jsStartsWith "header." s
      · simp only [h1, if_true]
        constructor
        · intro heq; cases heq
        · intro h2
          exact absurd ⟨h1, h2⟩ (headerFooter_disjoint s)
      · by_cases h2 : jsStartsWith "footer." s <;> simp [h1, h2]
  · intro s
    unfold getExpectedSlotForShellId isValidShellSlot SHELL_SLOT_PREFIXES
    by_cases h1 : jsStartsWith "header." s
    · simp [h1]
    · by_cases h2 : jsStartsWith "footer." s <;> simp [h1, h2]

/-- C6: `normalizeShellComponent` maps `null` to `null`, a bare string `s`
to `{id: s, props: {}}`, an object carrying an `id` key to the canonical
`{id, props}` shape with `props` defaulted to `{}` when missing or falsy,
and every other value (`undefined`, numbers, booleans, arrays, objects
without an `id` key) to `undefined` — which the whole-page validation's
`ShellComponentSchema` accepts as an omitted slot. -/
theorem claim_C6_main :
    normalizeShellComponent .jnull = .jnull ∧
    (∀ s : String,
       normalizeShellComponent (.jstr s) =
         .jobj [("id", .jstr s), ("props", .jobj [])]) ∧
    (∀ fields : List (String × JsValue), jsHasKey fields "id" = true →
       normalizeShellComponent (.jobj fields) =
         .jobj [("id", jsGet fields "id"),
                ("props",
                  if jsTruthy (jsGet fields "props") then jsGet fields "props"
                  else .jobj [])]) ∧
    normalizeShellComponent .undefined = .undefined ∧
    (∀ n : Int, normalizeShellComponent (.jnum n) = .undefined) ∧
    (∀ b : Bool, normalizeShellComponent (.jbool b) = .undefined) ∧
    (∀ elems : List JsValue, normalizeShellComponent (.jarr elems) = .undefined) ∧
    (∀ fields : List (String × JsValue), jsHasKey fields "id" = false →
       normalizeShellComponent (.jobj fields) = .undefined) ∧
    parseZ .shellCompS .undefined = .ok .undefined := by
  refine ⟨rfl, fun s => rfl, ?_, rfl, fun n => rfl, fun b => rfl, fun elems => rfl, ?_, rfl⟩
  · intro fields h
    simp [normalizeShellComponent, h]
  · intro fields h
    simp [normalizeShellComponent, h]

/-- C7 as stated is false: `effectivePack` is computed with JS `||`, not
`??`, so a present-but-empty section pack does not take precedence — it
falls through to the page pack. -/
theorem claim_C7_counterexample :
    ¬(∀ (sectionPack pagePack : Option String),
        sectionPack.isSome = true → effectivePack sectionPack pagePack = sectionPack) := by
  intro hall
  have h := hall (some "") (some "interweb") rfl
  rw [show effectivePack (some "") (some "interweb") = some "interweb" from rfl] at h
  exact absurd h (by decide)

/-- C7 (amended): the effective pack equals `section.pack` whenever it is
present and non-empty (truthy); when `section.pack` is absent or the empty
string, it equals `page.packKey`. -/
theorem claim_C7_main :
    (∀ (s : String) (pagePack : Option String),
       s ≠ "" → effectivePack (some s) pagePack = some s) ∧
    (∀ pagePack : Option String, effectivePack none pagePack = pagePack) ∧
    (∀ pagePack : Option String, effectivePack (some "") pagePack = pagePack) := by
  refine ⟨?_, fun pagePack => rfl, fun pagePack => rfl⟩
  intro s pagePack hs
  simp [effectivePack, hs]

/-- C7 witness: a concrete non-empty section pack takes precedence. -/
theorem claim_C7_witness :
    ("interweb" : String) ≠ "" ∧
      effectivePack (some "interweb") (some "pizza") = some "interweb" :=
  ⟨by decide, claim_C7_main.1 "interweb" (some "pizza") (by decide)⟩

/-- C5: the resolved style mapping contains exactly the override entries
whose key begins with `--`; an absent input, or an input whose every key is
rejected, resolves to an absent mapping rather than an empty one; each
rejected key yields exactly one dev diagnostic; the resolver is a total
function — it never throws. -/
theorem claim_C5_main :
    (∀ (isDev : Bool) (sectionId : String),
       sectionStyle isDev sectionId none = (none, [])) ∧
    (∀ (isDev : Bool) (sectionId : String) (entries : List (String × String)),
       (sectionStyle isDev sectionId (some entries)).fst =
         (if (entries.filter (fun kv => jsStartsWith "--" kv.fst)).isEmpty then none
          else some (entries.filter (fun kv => jsStartsWith "--" kv.fst)))) ∧
    (∀ (isDev : Bool) (sectionId : String) (entries : List (String × String)),
       (sectionStyle isDev sectionId (some entries)).snd =
         (if isDev then
           (entries.filter (fun kv => !jsStartsWith "--" kv.fst)).map
             (fun kv =>
               "[SectionRenderer] Invalid override key \"" ++ kv.fst ++
                 "\" in section \"" ++ sectionId ++ "\" — must start with \"--\"")
          else [])) ∧
    (∀ isDev : Bool, inlineStyle isDev none = (none, [])) ∧
    (∀ (isDev : Bool) (entries : List (String × String)),
       (inlineStyle isDev (some entries)).fst =
         (if (entries.filter (fun kv => jsStartsWith "--" kv.fst)).isEmpty then none
          else some (entries.filter (fun kv => jsStartsWith "--" kv.fst)))) ∧
    (∀ (isDev : Bool) (entries : List (String × String)),
       (inlineStyle isDev (some entries)).snd =
         (if isDev then
           (entries.filter (fun kv => !jsStartsWith "--" kv.fst)).map
             (fun kv =>
               "[ThemeScope] Invalid override key \"" ++ kv.fst ++
                 "\" — must start with \"--\"")
          else [])) := by
  refine ⟨fun isDev sectionId => rfl, ?_, ?_, fun isDev => rfl, ?_, ?_⟩
  · intro isDev sectionId entries
    simp only [sectionStyle]
    rw [overrideStep_foldl]
    simp
  · intro isDev sectionId entries
    simp only [sectionStyle]
    rw [overrideStep_foldl]
    simp
  · intro isDev entries
    simp only [inlineStyle]
    rw [overrideStep_foldl]
    simp
  · intro isDev entries
    simp only [inlineStyle]
    rw [overrideStep_foldl]
    simp

/-- C10: for every runtime configuration — including locale lists that
omit the default locale, repeat entries, or contain empty strings — the
normalized locales list has no duplicates, no empty strings, and carries
the default locale as its first element. -/
theorem claim_C10_main (config : RuntimeConfigPublic) :
    (getRuntimeI18n config).locales.Nodup ∧
    (∀ s ∈ (getRuntimeI18n config).locales, s ≠ "") ∧
    (getRuntimeI18n config).locales.head? =
      some (getRuntimeI18n config).defaultLocale := by
  have hdl : (getRuntimeI18n config).defaultLocale ≠ "" := by
    unfold getRuntimeI18n
    cases hc : config.defaultLocale with
    | none => simp
    | some s => by_cases hs : s = "" <;> simp [hs]
  have hloc : (getRuntimeI18n config).locales =
      uniq ((getRuntimeI18n config).defaultLocale :: config.locales.getD ["fr", "en"]) := by
    unfold getRuntimeI18n
    cases hc : config.defaultLocale with
    | none => simp
    | some s => by_cases hs : s = "" <;> simp [hs]
  refine ⟨?_, ?_, ?_⟩
  · rw [hloc]
    exact (dedupeFirst_nodup _ []).1
  · intro s hs
    rw [hloc] at hs
    have hmem := dedupeFirst_mem _ [] s hs
    have := List.mem_filter.mp hmem
    simpa [jsTruthy] using this.2
  · rw [hloc]
    unfold uniq
    rw [List.filter_cons]
    have htru : jsTruthy (.jstr (getRuntimeI18n config).defaultLocale) = true := by
      simpa [jsTruthy] using hdl
    rw [if_pos htru]
    simp [dedupeFirst]

/-- C10 witness: a configuration whose locale list repeats entries and
contains an empty string still normalizes to a clean list headed by the
default locale. -/
theorem claim_C10_witness :
    ("en" : String) ≠ "" ∧
      (getRuntimeI18n
        { defaultLocale := some "fr", locales := some ["en", "", "fr", "en"],
          localeMeta := none, siteUrl := none, shellStrictPrivate := false }).locales.Nodup := by
  have h := claim_C10_main
    { defaultLocale := some "fr", locales := some ["en", "", "fr", "en"],
      localeMeta := none, siteUrl := none, shellStrictPrivate := false }
  exact ⟨h.2.1 "en" (by decide), h.1⟩

/-- C2: when the primary content path misses and the requested locale is
not the default, the loader issues exactly one further storage query — same
kind and slug, default locale substituted; if that fallback also misses
(or the locale is the default and the primary missed), `loadPage` returns
the NotFound outcome `.ok none`, not a thrown error. -/
theorem claim_C2_main (store : String → Option JsValue)
    (config : RuntimeConfigPublic) (isDev : Bool) (kind : PageKind)
    (slug locale : String)
    (hmiss : store (buildContentPath kind slug locale) = none) :
    (locale ≠ (getRuntimeI18n config).defaultLocale →
       (loadPageFetch store (getRuntimeI18n config).defaultLocale kind slug locale).fst =
         [buildContentPath kind slug locale,
          buildContentPath kind slug (getRuntimeI18n config).defaultLocale] ∧
       (store (buildContentPath kind slug (getRuntimeI18n config).defaultLocale) = none →
          loadPage store config isDev kind slug locale = .ok none)) ∧
    (locale = (getRuntimeI18n config).defaultLocale →
       loadPage store config isDev kind slug locale = .ok none) := by
  constructor
  · intro hne
    constructor
    · simp only [loadPageFetch, hmiss]
      rw [if_pos hne]
    · intro hfb
      have hsnd :
          (loadPageFetch store (getRuntimeI18n config).defaultLocale kind slug locale).snd =
            none := by
        simp only [loadPageFetch, hmiss]
        rw [if_pos hne]
        simpa using hfb
      simp only [loadPage, hsnd]
  · intro heq
    have hsnd :
        (loadPageFetch store (getRuntimeI18n config).defaultLocale kind slug locale).snd =
          none := by
      simp only [loadPageFetch, hmiss]
      rw [if_neg (by simp [heq])]
    simp only [loadPage, hsnd]

/-- C2 witness: an empty store at a non-default locale yields NotFound
after exactly the primary and fallback queries. -/
theorem claim_C2_witness :
    loadPage (fun _ => none)
        { defaultLocale := some "fr", locales := none, localeMeta := none,
          siteUrl := none, shellStrictPrivate := false } true .site "x" "en" =
      .ok none ∧
    (loadPageFetch (fun _ => none)
        (getRuntimeI18n
          { defaultLocale := some "fr", locales := none, localeMeta := none,
            siteUrl := none, shellStrictPrivate := false }).defaultLocale
        .site "x" "en").fst =
      ["/en/pages/site/x", "/fr/pages/site/x"] := by
  have h := claim_C2_main (fun _ => none)
    { defaultLocale := some "fr", locales := none, localeMeta := none,
      siteUrl := none, shellStrictPrivate := false } true .site "x" "en" rfl
  have h2 := h.1 (by decide)
  refine ⟨h2.2 rfl, ?_⟩
  rw [h2.1]
  rfl

/-- C4: the validation gate returns a structured `{success, ...}` result
and never throws (it is a total function into `ValidationResult`): an id
absent from its registry yields `success: false` with the string
`<id> not found in registry` — the same result shape as a props-shape
failure — and when the schema exists and parsing succeeds, the returned
data is the coerced/defaulted payload. -/
theorem claim_C4_main (id : String) (props : JsValue) (currentYear : Int) :
    (regGet sectionRegistry id = none →
       validateSectionProps id props =
         .failure ("Section \"" ++ id ++ "\" not found in registry")) ∧
    (∀ (entry : SectionEntry) (d : JsValue),
       regGet sectionRegistry id = some entry →
       parseZ entry.schema props = .ok d →
       validateSectionProps id props = .success d) ∧
    (regGet (shellRegistry currentYear) id = none →
       validateShellProps currentYear id props =
         .failure ("Shell \"" ++ id ++ "\" not found in registry")) ∧
    (∀ (entry : ShellEntry) (d : JsValue),
       regGet (shellRegistry currentYear) id = some entry →
       parseZ entry.schema props = .ok d →
       validateShellProps currentYear id props = .success d) := by
  refine ⟨?_, ?_, ?_, ?_⟩
  · intro hnone
    simp only [validateSectionProps, hnone]
  · intro entry d hentry hparse
    simp only [validateSectionProps, hentry, hparse]
  · intro hnone
    simp only [validateShellProps, hnone]
  · intro entry d hentry hparse
    simp only [validateShellProps, hentry, hparse]

/-- C4 witness: a registry miss produces the structured not-found failure;
a registered id with valid props returns the coerced payload. -/
theorem claim_C4_witness :
    validateSectionProps "not.registered" (.jobj []) =
      .failure "Section \"not.registered\" not found in registry" ∧
    validateSectionProps "hero.split" (.jobj [("title", .jstr "Welcome")]) =
      .success (.jobj [("title", .jstr "Welcome")]) ∧
    validateShellProps 2025 "not.registered" (.jobj []) =
      .failure "Shell \"not.registered\" not found in registry" := by
  refine ⟨?_, ?_, ?_⟩
  · exact (claim_C4_main "not.registered" (.jobj []) 2025).1 rfl
  · exact (claim_C4_main "hero.split" (.jobj [("title", .jstr "Welcome")]) 2025).2.1
      { id := "hero.split", schema := HeroSplitSchema }
      (.jobj [("title", .jstr "Welcome")]) rfl rfl
  · exact (claim_C4_main "not.registered" (.jobj []) 2025).2.2.1 rfl

/-- C8 as stated is false for the section registry: `getAllSections()` is
`Array.from(registry.values())` — insertion order, not sorted — and the
actual registration order is not alphabetical (for example `hero.split` is
registered before `faq.simple`). -/
theorem claim_C8_counterexample :
    ¬ ((getAllSections sectionRegistry).map SectionEntry.id).Sorted
        (fun a b => strLe a b = true) := by
  decide

/-- C8 (amended): the shell registry's list-all operations
(`getAllShells`/`listShells`) return entries sorted by id for every
reachable registry state; the section registry's `getAllSections` returns
entries in registration (insertion) order, which for the current
registrations is not alphabetical. -/
theorem claim_C8_main :
    (∀ reg : List (String × ShellEntry), (getAllShells reg).Sorted shellIdLe) ∧
    (∀ reg : List (String × ShellEntry), listShells reg = getAllShells reg) ∧
    (getAllSections sectionRegistry).map SectionEntry.id =
      ["hero.split", "faq.simple", "layout.stack", "layout.split",
       "interweb.hero", "interweb.features", "interweb.bento",
       "interweb.testimonials", "interweb.recap", "interweb.results",
       "interweb.contact"] := by
  refine ⟨?_, fun reg => rfl, by rfl⟩
  intro reg
  exact List.sorted_insertionSort shellIdLe (reg.map Prod.snd)

/-- C9: re-validating the coerced output of a successful section props
validation is a no-op — it succeeds and returns the same data. -/
theorem claim_C9_main (id : String) (x d : JsValue)
    (h : validateSectionProps id x = .success d) :
    validateSectionProps id d = .success d := by
  cases hreg : regGet sectionRegistry id with
  | none => simp [validateSectionProps, hreg] at h
  | some entry =>
    simp only [validateSectionProps, hreg] at h ⊢
    cases hp : parseZ entry.schema x with
    | error es => simp [hp] at h
    | ok d' =>
      simp only [hp, ValidationResult.success.injEq] at h
      subst h
      have hwf : wfZ entry.schema = true := by
        obtain ⟨kv, hkv, hsnd⟩ := regGet_mem _ _ _ hreg
        have hw := sectionRegistry_wf kv hkv
        rw [hsnd] at hw
        exact hw
      simp only [parseZ_idem entry.schema x d' hwf hp]

/-- C9 witness: validating `hero.split` props with an unknown extra key
coerces (strips) it; re-validating the coerced output returns it
unchanged. -/
theorem claim_C9_witness :
    validateSectionProps "hero.split"
        (.jobj [("title", .jstr "Welcome"), ("junk", .jnum 1)]) =
      .success (.jobj [("title", .jstr "Welcome")]) ∧
    validateSectionProps "hero.split" (.jobj [("title", .jstr "Welcome")]) =
      .success (.jobj [("title", .jstr "Welcome")]) :=
  ⟨by decide,
   claim_C9_main "hero.split"
     (.jobj [("title", .jstr "Welcome"), ("junk", .jnum 1)])
     (.jobj [("title", .jstr "Welcome")]) (by decide)⟩

/-- C3 witness: a concrete header-namespaced id is valid exactly for the
header slot, and `getExpectedSlotForShellId` reports that slot. -/
theorem claim_C3_witness :
    getExpectedSlotForShellId "header.nav" = some .header ∧
    isValidShellSlot "header.nav" .header = true ∧
    isValidShellSlot "header.nav" .footer = false :=
  ⟨(claim_C3_main.2.2.1 "header.nav" .header).mpr (by decide), by decide, by decide⟩

/-- C6 witness: an object slot value with an `id` key and a falsy `props`
normalizes to the canonical shape with `props` defaulted to `{}`. -/
theorem claim_C6_witness :
    jsHasKey [("id", .jstr "header.nav"), ("props", .jnull)] "id" = true ∧
    normalizeShellComponent (.jobj [("id", .jstr "header.nav"), ("props", .jnull)]) =
      .jobj [("id", .jstr "header.nav"), ("props", .jobj [])] := by
  refine ⟨by decide, ?_⟩
  have h := claim_C6_main.2.2.1 [("id", .jstr "header.nav"), ("props", .jnull)] (by decide)
  rw [h]
  decide
